import Mathlib

/-!
Shallow embedding of the SQL chat-storage repository (package `chatstorage`,
file `infrastructure/chatstorage` in the Go sources) together with the parts
of the SQL engine semantics its queries rely on.

Modelling conventions:
* Tables are lists of rows; an SQL `UPDATE ... WHERE key` maps the matching
  rows, an `INSERT` appends a row, a `DELETE ... WHERE p` filters rows out.
* `time.Now()` is passed in explicitly as a `now : Nat` parameter.
* Go byte slices are `List Nat`, Go strings are `String` (matching is done
  over `String.data`, the underlying `List Char`).
* Functions whose behaviour the claims track through the Go error channel are
  additionally modelled as control-flow functions (suffix `E`) taking the SQL
  engine's responses (error / rows-affected pairs) as explicit inputs, exactly
  mirroring the Go control flow around `db.Exec` / `QueryRow().Scan`.
-/

namespace ChatStorage

/-- Row of the `chats` table (Go struct `domainChatStorage.Chat`).
Primary key: `(jid, deviceID)`. -/
structure Chat where
  deviceID : String
  jid : String
  name : String
  lastMessageTime : Nat
  ephemeralExpiration : Nat
  createdAt : Nat
  updatedAt : Nat
deriving DecidableEq

/-- Row of the `messages` table (Go struct `domainChatStorage.Message`).
Primary key: `(id, chatJID, deviceID)`. -/
structure Message where
  id : String
  chatJID : String
  deviceID : String
  sender : String
  content : String
  timestamp : Nat
  isFromMe : Bool
  mediaType : String
  filename : String
  url : String
  mediaKey : List Nat
  fileSHA256 : List Nat
  fileEncSHA256 : List Nat
  fileLength : Nat
  createdAt : Nat
  updatedAt : Nat
deriving DecidableEq

/-- Row of the `devices` table (Go struct `domainChatStorage.DeviceRecord`). -/
structure DeviceRecord where
  deviceID : String
  displayName : String
  jid : String
  createdAt : Nat
  updatedAt : Nat
deriving DecidableEq

/-- The database state: the three data tables plus the `schema_info`
version-tracking table (a bag of recorded version numbers). -/
structure DB where
  chats : List Chat
  messages : List Message
  devices : List DeviceRecord
  schemaInfo : List Nat
deriving DecidableEq

/-- `WHERE jid = ? AND device_id = ?` predicate on chat rows. -/
def chatKeyMatch (jid deviceID : String) (c : Chat) : Bool :=
  c.jid = jid && c.deviceID = deviceID

/-- `WHERE id = ? AND chat_jid = ? AND device_id = ?` predicate on message rows. -/
def msgKeyMatch (id chatJID deviceID : String) (m : Message) : Bool :=
  m.id = id && m.chatJID = chatJID && m.deviceID = deviceID

/-- Effect of the `UPDATE chats SET name, last_message_time,
ephemeral_expiration, updated_at` statement on one matching row. -/
def updateChatRow (c row : Chat) : Chat :=
  { row with
    name := c.name
    lastMessageTime := c.lastMessageTime
    ephemeralExpiration := c.ephemeralExpiration
    updatedAt := c.updatedAt }

/-- `StoreChat` (part_001 lines 44-59): set `chat.UpdatedAt = now`, run the
keyed `UPDATE`; if it affected zero rows, `INSERT` the row with
`created_at = now`.  Returns the new database and the (mutated) argument. -/
def StoreChat (db : DB) (chat : Chat) (now : Nat) : DB × Chat :=
  let chat := { chat with updatedAt := now }
  let affected := (db.chats.filter (chatKeyMatch chat.jid chat.deviceID)).length
  if affected = 0 then
    ({ db with chats := db.chats ++ [{ chat with createdAt := now }] }, chat)
  else
    ({ db with
        chats := db.chats.map fun row =>
          if chatKeyMatch chat.jid chat.deviceID row then updateChatRow chat row else row },
     chat)

/-- Effect of the keyed `UPDATE messages SET ...` statement on one matching row. -/
def updateMessageRow (m row : Message) : Message :=
  { row with
    sender := m.sender
    content := m.content
    timestamp := m.timestamp
    isFromMe := m.isFromMe
    mediaType := m.mediaType
    filename := m.filename
    url := m.url
    mediaKey := m.mediaKey
    fileSHA256 := m.fileSHA256
    fileEncSHA256 := m.fileEncSHA256
    fileLength := m.fileLength
    updatedAt := m.updatedAt }

/-- `StoreMessage` (part_001 lines 79-99): set both timestamps to `now`,
then, if content and media type are both empty, return success without
touching the database (drop policy); otherwise upsert (keyed `UPDATE`,
`INSERT` on zero affected rows). -/
def StoreMessage (db : DB) (msg : Message) (now : Nat) : DB × Message :=
  let msg := { msg with createdAt := now, updatedAt := now }
  if msg.content = "" && msg.mediaType = "" then
    (db, msg)
  else
    let affected := (db.messages.filter (msgKeyMatch msg.id msg.chatJID msg.deviceID)).length
    if affected = 0 then
      ({ db with messages := db.messages ++ [msg] }, msg)
    else
      ({ db with
          messages := db.messages.map fun row =>
            if msgKeyMatch msg.id msg.chatJID msg.deviceID row then updateMessageRow msg row
            else row },
       msg)

/-- Number of `chats` rows bearing a given primary key. -/
def chatRowCount (db : DB) (jid deviceID : String) : Nat :=
  (db.chats.filter (chatKeyMatch jid deviceID)).length

theorem chatKeyMatch_updateChatRow (jid deviceID : String) (c row : Chat) :
    chatKeyMatch jid deviceID (updateChatRow c row) = chatKeyMatch jid deviceID row := by
  simp [chatKeyMatch, updateChatRow]

/-- A keyed `UPDATE` neither creates nor destroys rows matching the key. -/
theorem filter_map_ite_length {α : Type} (p : α → Bool) (f : α → α)
    (hp : ∀ a, p (f a) = p a) (l : List α) :
    ((l.map fun a => if p a then f a else a).filter p).length = (l.filter p).length := by
  induction l with
  | nil => rfl
  | cons a l ih =>
    by_cases ha : p a
    · simp [List.filter_cons, ha, hp, ih]
    · simp only [Bool.not_eq_true] at ha
      simp [List.filter_cons, ha, ih]

theorem chatRowCount_storeChat (db : DB) (c : Chat) (t : Nat) :
    chatRowCount (StoreChat db c t).1 c.jid c.deviceID =
      if chatRowCount db c.jid c.deviceID = 0 then 1 else chatRowCount db c.jid c.deviceID := by
  unfold StoreChat chatRowCount
  by_cases h : (db.chats.filter (chatKeyMatch c.jid c.deviceID)).length = 0
  · simp only [h, ite_true]
    simp [List.filter_append, h, List.length_eq_zero.mp h, chatKeyMatch]
  · simp only [h, ite_false]
    exact filter_map_ite_length _ _ (fun row => chatKeyMatch_updateChatRow _ _ _ row) db.chats

theorem storeChat_key_fields (db : DB) (c : Chat) (t : Nat) :
    ∀ row ∈ (StoreChat db c t).1.chats, chatKeyMatch c.jid c.deviceID row = true →
      row.name = c.name ∧ row.lastMessageTime = c.lastMessageTime := by
  unfold StoreChat
  by_cases h : (db.chats.filter (chatKeyMatch c.jid c.deviceID)).length = 0
  · simp only [h, ite_true]
    intro row hrow hkey
    rcases List.mem_append.mp hrow with hl | hr
    · exfalso
      have : row ∈ db.chats.filter (chatKeyMatch c.jid c.deviceID) :=
        List.mem_filter.mpr ⟨hl, hkey⟩
      rw [List.length_eq_zero.mp h] at this
      exact List.not_mem_nil row this
    · have : row = { c with updatedAt := t, createdAt := t } := by
        simpa using hr
      subst this
      exact ⟨rfl, rfl⟩
  · simp only [h, ite_false]
    intro row hrow hkey
    rcases List.mem_map.mp hrow with ⟨orig, horig, heq⟩
    by_cases hk : chatKeyMatch c.jid c.deviceID orig
    · rw [if_pos hk] at heq
      subst heq
      exact ⟨rfl, rfl⟩
    · rw [if_neg hk] at heq
      subst heq
      exact absurd hkey hk

/-- Example chat used to instantiate theorems with hypotheses. -/
def chatA : Chat :=
  { deviceID := "dev", jid := "j@s", name := "A", lastMessageTime := 10,
    ephemeralExpiration := 0, createdAt := 0, updatedAt := 0 }

/-- Second example chat: same primary key as `chatA`, different name. -/
def chatB : Chat :=
  { chatA with name := "B", lastMessageTime := 20 }

/-- The empty database. -/
def dbEmpty : DB := { chats := [], messages := [], devices := [], schemaInfo := [] }

/-- C1: storing a chat twice with the same (jid, device_id) key, the second
call with a different name, leaves exactly one chats row for that key, and
that row bears the second call's name (latest values win), assuming the
primary-key invariant (at most one row per key) held initially. -/
theorem C1_storeChat_upsert_latest_wins (db : DB) (c1 c2 : Chat) (t1 t2 : Nat)
    (hjid : c2.jid = c1.jid) (hdev : c2.deviceID = c1.deviceID)
    (hname : c1.name ≠ c2.name)
    (hpk : chatRowCount db c1.jid c1.deviceID ≤ 1) :
    chatRowCount (StoreChat (StoreChat db c1 t1).1 c2 t2).1 c1.jid c1.deviceID = 1 ∧
    ∀ row ∈ (StoreChat (StoreChat db c1 t1).1 c2 t2).1.chats,
      chatKeyMatch c1.jid c1.deviceID row = true → row.name = c2.name := by
  have h1 : chatRowCount (StoreChat db c1 t1).1 c1.jid c1.deviceID = 1 := by
    rw [chatRowCount_storeChat]
    by_cases h0 : chatRowCount db c1.jid c1.deviceID = 0
    · simp [h0]
    · rw [if_neg h0]; omega
  have h2 : chatRowCount (StoreChat (StoreChat db c1 t1).1 c2 t2).1 c2.jid c2.deviceID = 1 := by
    rw [chatRowCount_storeChat, hjid, hdev, h1]
    simp
  refine ⟨by rw [← hjid, ← hdev]; exact h2, ?_⟩
  intro row hrow hkey
  have := storeChat_key_fields (StoreChat db c1 t1).1 c2 t2 row hrow
  rw [hjid, hdev] at this
  exact (this hkey).1

/-- Witness for C1 at a concrete input: two stores into the empty database. -/
theorem C1_witness :
    (chatB.jid = chatA.jid ∧ chatB.deviceID = chatA.deviceID ∧ chatA.name ≠ chatB.name ∧
      chatRowCount dbEmpty chatA.jid chatA.deviceID ≤ 1) ∧
    (chatRowCount (StoreChat (StoreChat dbEmpty chatA 5).1 chatB 9).1
        chatA.jid chatA.deviceID = 1 ∧
     ∀ row ∈ (StoreChat (StoreChat dbEmpty chatA 5).1 chatB 9).1.chats,
       chatKeyMatch chatA.jid chatA.deviceID row = true → row.name = chatB.name) :=
  ⟨⟨by decide, by decide, by decide, by decide⟩,
   C1_storeChat_upsert_latest_wins dbEmpty chatA chatB 5 9
     (by decide) (by decide) (by decide) (by decide)⟩

/-- Errors surfaced by the SQL engine: `sql.ErrNoRows` or any other failure
(connectivity, constraint violation, malformed query...). -/
inductive SqlErr where
  | errNoRows
  | failure (msg : String)
deriving DecidableEq

/-- Outcome of a Go `db.Exec` call as the repository observes it: the
returned error (if any) and the rows-affected count of the result. -/
abbrev ExecRes := Option SqlErr × Nat

/-- Control flow of `StoreChat` (part_001 lines 44-59) around its two engine
calls: return the `UPDATE` error if any; on zero affected rows return the
`INSERT`'s error; otherwise success. -/
def StoreChatE (updateRes insertRes : ExecRes) : Option SqlErr :=
  match updateRes.1 with
  | some e => some e
  | none => if updateRes.2 = 0 then insertRes.1 else none

/-- Control flow of `StoreMessage` (part_001 lines 79-99): the drop-policy
check precedes both engine calls and returns success directly. -/
def StoreMessageE (msg : Message) (updateRes insertRes : ExecRes) : Option SqlErr :=
  if msg.content = "" && msg.mediaType = "" then none
  else
    match updateRes.1 with
    | some e => some e
    | none => if updateRes.2 = 0 then insertRes.1 else none

/-- Outcome of a Go call: a normal return, or a runtime panic (crash). -/
inductive GoResult (α : Type) where
  | ret (value : α)
  | crash
deriving DecidableEq

/-- Control flow of `SaveDeviceRecord` (part_001 lines 209-217).  The
UPDATE's error is discarded (`res, _ :=`), but on an engine error
`database/sql` returns a nil result, so the unconditional
`res.RowsAffected()` dereferences nil and the call crashes (runtime panic)
instead of returning.  When the UPDATE succeeds, a zero affected-row count
triggers the INSERT, whose error is discarded by the bare `r.db.Exec`, and
the function ends with `return nil` either way. -/
def SaveDeviceRecordE (updateRes insertRes : ExecRes) : GoResult (Option SqlErr) :=
  match updateRes.1 with
  | some _ => GoResult.crash
  | none =>
    let _ := if updateRes.2 = 0 then insertRes.1 else none
    GoResult.ret none

/-- Control flow of `CreateMessage` (part_001 lines 248-275) around its two
repository writes: the chat upsert's error is discarded (`_ = r.StoreChat`),
and the message upsert's result is returned. -/
def CreateMessageE (storeChatRes storeMsgRes : Option SqlErr) : Option SqlErr :=
  let _ := storeChatRes
  storeMsgRes

/-- Example message with empty content and media kind (dropped by policy). -/
def msgEmptyW : Message :=
  { id := "m1", chatJID := "j@s", deviceID := "dev", sender := "s@s",
    content := "", timestamp := 3, isFromMe := false, mediaType := "",
    filename := "", url := "", mediaKey := [], fileSHA256 := [],
    fileEncSHA256 := [], fileLength := 0, createdAt := 1, updatedAt := 2 }

/-- Example message with non-empty content. -/
def msgHiW : Message :=
  { msgEmptyW with id := "m2", content := "Hi" }

/-- C10: `StoreMessage` overwrites the caller's `CreatedAt` and `UpdatedAt`
with the current time before the drop-policy check (and modifies no other
field of the input), so the struct is mutated even when nothing is
persisted. -/
theorem C10_storeMessage_mutates_timestamps (db : DB) (m : Message) (now : Nat) :
    (StoreMessage db m now).2 = { m with createdAt := now, updatedAt := now } ∧
    (m.content = "" → m.mediaType = "" → (StoreMessage db m now).1 = db) := by
  constructor
  · simp only [StoreMessage]
    split
    · rfl
    · split <;> rfl
  · intro hc hm
    simp only [StoreMessage, hc, hm]
    simp

/-- Witness for C10: a message with empty content and media type. -/
theorem C10_witness :
    (StoreMessage dbEmpty msgEmptyW 7).2 =
      { msgEmptyW with createdAt := 7, updatedAt := 7 } ∧
    (StoreMessage dbEmpty msgEmptyW 7).1 = dbEmpty :=
  ⟨(C10_storeMessage_mutates_timestamps dbEmpty msgEmptyW 7).1,
   (C10_storeMessage_mutates_timestamps dbEmpty msgEmptyW 7).2 rfl rfl⟩

/-- C2: a message with empty text content and empty media kind is never
persisted (the messages table is unchanged) yet the call reports success for
every engine behaviour; a message with non-empty content or media kind is
persisted under its key with the stored values. -/
theorem C2_storeMessage_drop_policy (db : DB) (m : Message) (now : Nat)
    (u i : ExecRes) :
    (m.content = "" ∧ m.mediaType = "" →
      (StoreMessage db m now).1.messages = db.messages ∧
      StoreMessageE m u i = none) ∧
    (¬(m.content = "" ∧ m.mediaType = "") →
      ∃ row ∈ (StoreMessage db m now).1.messages,
        row.id = m.id ∧ row.chatJID = m.chatJID ∧ row.deviceID = m.deviceID ∧
        row.content = m.content ∧ row.mediaType = m.mediaType) := by
  constructor
  · rintro ⟨hc, hm⟩
    constructor
    · simp only [StoreMessage, hc, hm]
      simp
    · simp only [StoreMessageE, hc, hm]
      simp
  · intro hne
    have hcond : ¬((m.content = "" && m.mediaType = "") = true) := by
      intro h
      exact hne (by simpa using h)
    simp only [StoreMessage]
    rw [if_neg hcond]
    by_cases h0 :
        (db.messages.filter (msgKeyMatch m.id m.chatJID m.deviceID)).length = 0
    · rw [if_pos h0]
      exact ⟨{ m with createdAt := now, updatedAt := now },
        by simp, rfl, rfl, rfl, rfl, rfl⟩
    · rw [if_neg h0]
      have hne2 : db.messages.filter (msgKeyMatch m.id m.chatJID m.deviceID) ≠ [] := by
        intro hnil
        rw [hnil] at h0
        exact h0 rfl
      rcases List.exists_mem_of_ne_nil _ hne2 with ⟨row0, ha⟩
      rcases List.mem_filter.mp ha with ⟨hmem0, hkey0⟩
      have hkeys : (row0.id = m.id ∧ row0.chatJID = m.chatJID) ∧ row0.deviceID = m.deviceID := by
        simpa [msgKeyMatch] using hkey0
      refine ⟨updateMessageRow { m with createdAt := now, updatedAt := now } row0, ?_, ?_⟩
      · refine List.mem_map.mpr ⟨row0, hmem0, ?_⟩
        rw [if_pos hkey0]
      · exact ⟨by simpa [updateMessageRow] using hkeys.1.1,
              by simpa [updateMessageRow] using hkeys.1.2,
              by simpa [updateMessageRow] using hkeys.2,
              rfl, rfl⟩

/-- Witness for C2: the empty message is dropped (table unchanged, success
reported); the non-empty message is persisted. -/
theorem C2_witness :
    ((StoreMessage dbEmpty msgEmptyW 7).1.messages = dbEmpty.messages ∧
      StoreMessageE msgEmptyW (some (SqlErr.failure "down"), 0) (none, 0) = none) ∧
    (∃ row ∈ (StoreMessage dbEmpty msgHiW 7).1.messages,
      row.id = msgHiW.id ∧ row.chatJID = msgHiW.chatJID ∧
      row.deviceID = msgHiW.deviceID ∧ row.content = msgHiW.content ∧
      row.mediaType = msgHiW.mediaType) :=
  ⟨(C2_storeMessage_drop_policy dbEmpty msgEmptyW 7
      (some (SqlErr.failure "down"), 0) (none, 0)).1 ⟨rfl, rfl⟩,
   (C2_storeMessage_drop_policy dbEmpty msgHiW 7 (none, 0) (none, 0)).2
     (by decide)⟩

/-- Engine semantics of `QueryRow(...).Scan` for the `GetChat` query
(`SELECT ... FROM chats WHERE jid = ?`, first matching row): the scanned row
and the scan error (`sql.ErrNoRows` exactly when no row matches). -/
def queryRowChat (db : DB) (jid : String) : Option Chat × Option SqlErr :=
  match db.chats.find? (fun c => c.jid = jid) with
  | some c => (some c, none)
  | none => (none, some SqlErr.errNoRows)

/-- Control flow of `GetChat` (part_001 lines 61-68) around the scan result:
`sql.ErrNoRows` is normalized to `(nil, nil)`; anything else passes through. -/
def GetChatE (scanned : Option Chat) (scanErr : Option SqlErr) :
    Option Chat × Option SqlErr :=
  if scanErr = some SqlErr.errNoRows then (none, none) else (scanned, scanErr)

/-- `GetChat` against an in-model database (engine reachable). -/
def GetChat (db : DB) (jid : String) : Option Chat × Option SqlErr :=
  GetChatE (queryRowChat db jid).1 (queryRowChat db jid).2

/-- Scan semantics of the `GetChatByDevice` query (`WHERE jid = ? AND
device_id = ?`). -/
def queryRowChatByDevice (db : DB) (deviceID jid : String) :
    Option Chat × Option SqlErr :=
  match db.chats.find? (fun c => c.jid = jid && c.deviceID = deviceID) with
  | some c => (some c, none)
  | none => (none, some SqlErr.errNoRows)

/-- Control flow of `GetChatByDevice` (part_001 lines 70-77). -/
def GetChatByDeviceE (scanned : Option Chat) (scanErr : Option SqlErr) :
    Option Chat × Option SqlErr :=
  if scanErr = some SqlErr.errNoRows then (none, none) else (scanned, scanErr)

/-- `GetChatByDevice` against an in-model database. -/
def GetChatByDevice (db : DB) (deviceID jid : String) :
    Option Chat × Option SqlErr :=
  GetChatByDeviceE (queryRowChatByDevice db deviceID jid).1
    (queryRowChatByDevice db deviceID jid).2

/-- Scan semantics of the `GetMessageByID` query (`WHERE id = ? LIMIT 1`). -/
def queryRowMessageByID (db : DB) (id : String) :
    Option Message × Option SqlErr :=
  match db.messages.find? (fun m => m.id = id) with
  | some m => (some m, none)
  | none => (none, some SqlErr.errNoRows)

/-- Control flow of `GetMessageByID` (part_001 lines 101-108). -/
def GetMessageByIDE (scanned : Option Message) (scanErr : Option SqlErr) :
    Option Message × Option SqlErr :=
  if scanErr = some SqlErr.errNoRows then (none, none) else (scanned, scanErr)

/-- `GetMessageByID` against an in-model database. -/
def GetMessageByID (db : DB) (id : String) : Option Message × Option SqlErr :=
  GetMessageByIDE (queryRowMessageByID db id).1 (queryRowMessageByID db id).2

/-- Scan semantics of the `GetDeviceRecord` query
(`WHERE device_id = ? LIMIT 1`). -/
def queryRowDeviceRecord (db : DB) (deviceID : String) :
    Option DeviceRecord × Option SqlErr :=
  match db.devices.find? (fun d => d.deviceID = deviceID) with
  | some d => (some d, none)
  | none => (none, some SqlErr.errNoRows)

/-- Control flow of `GetDeviceRecord` (part_001 lines 234-241). -/
def GetDeviceRecordE (scanned : Option DeviceRecord) (scanErr : Option SqlErr) :
    Option DeviceRecord × Option SqlErr :=
  if scanErr = some SqlErr.errNoRows then (none, none) else (scanned, scanErr)

/-- `GetDeviceRecord` against an in-model database. -/
def GetDeviceRecord (db : DB) (deviceID : String) :
    Option DeviceRecord × Option SqlErr :=
  GetDeviceRecordE (queryRowDeviceRecord db deviceID).1
    (queryRowDeviceRecord db deviceID).2

/-- C5: when no matching row exists, each point lookup returns the explicit
non-error not-found result `(nil, nil)`, and a genuine engine failure is
passed through as an error — the two cases are distinguishable. -/
theorem C5_point_lookups_not_found (db : DB) (jid deviceID id : String)
    (c : Option Chat) (mrow : Option Message) (drow : Option DeviceRecord)
    (msg : String) :
    ((∀ x ∈ db.chats, x.jid ≠ jid) → GetChat db jid = (none, none)) ∧
    ((∀ x ∈ db.chats, ¬(x.jid = jid ∧ x.deviceID = deviceID)) →
      GetChatByDevice db deviceID jid = (none, none)) ∧
    ((∀ x ∈ db.messages, x.id ≠ id) → GetMessageByID db id = (none, none)) ∧
    ((∀ x ∈ db.devices, x.deviceID ≠ deviceID) →
      GetDeviceRecord db deviceID = (none, none)) ∧
    (GetChatE c (some (SqlErr.failure msg)) = (c, some (SqlErr.failure msg)) ∧
     GetChatByDeviceE c (some (SqlErr.failure msg)) =
       (c, some (SqlErr.failure msg)) ∧
     GetMessageByIDE mrow (some (SqlErr.failure msg)) =
       (mrow, some (SqlErr.failure msg)) ∧
     GetDeviceRecordE drow (some (SqlErr.failure msg)) =
       (drow, some (SqlErr.failure msg))) := by
  refine ⟨?_, ?_, ?_, ?_, ?_, ?_, ?_, ?_⟩
  · intro h
    have hf : db.chats.find? (fun c => c.jid = jid) = none := by
      rw [List.find?_eq_none]
      intro x hx
      simpa using h x hx
    simp [GetChat, queryRowChat, hf, GetChatE]
  · intro h
    have hf : db.chats.find? (fun c => c.jid = jid && c.deviceID = deviceID) = none := by
      rw [List.find?_eq_none]
      intro x hx
      simpa using h x hx
    simp [GetChatByDevice, queryRowChatByDevice, hf, GetChatByDeviceE]
  · intro h
    have hf : db.messages.find? (fun m => m.id = id) = none := by
      rw [List.find?_eq_none]
      intro x hx
      simpa using h x hx
    simp [GetMessageByID, queryRowMessageByID, hf, GetMessageByIDE]
  · intro h
    have hf : db.devices.find? (fun d => d.deviceID = deviceID) = none := by
      rw [List.find?_eq_none]
      intro x hx
      simpa using h x hx
    simp [GetDeviceRecord, queryRowDeviceRecord, hf, GetDeviceRecordE]
  · simp [GetChatE]
  · simp [GetChatByDeviceE]
  · simp [GetMessageByIDE]
  · simp [GetDeviceRecordE]

/-- Witness for C5: lookups against the empty database. -/
theorem C5_witness :
    GetChat dbEmpty "j@s" = (none, none) ∧
    GetChatByDevice dbEmpty "dev" "j@s" = (none, none) ∧
    GetMessageByID dbEmpty "m1" = (none, none) ∧
    GetDeviceRecord dbEmpty "dev" = (none, none) :=
  ⟨(C5_point_lookups_not_found dbEmpty "j@s" "dev" "m1" none none none "x").1
     (by decide),
   (C5_point_lookups_not_found dbEmpty "j@s" "dev" "m1" none none none "x").2.1
     (by decide),
   (C5_point_lookups_not_found dbEmpty "j@s" "dev" "m1" none none none "x").2.2.1
     (by decide),
   (C5_point_lookups_not_found dbEmpty "j@s" "dev" "m1" none none none "x").2.2.2.1
     (by decide)⟩

/-- `DeleteChat` (part_001 lines 149-154): both `DELETE` statements run in
one transaction; by SQL transaction atomicity a successful commit applies
both deletions and a failed transaction applies neither.  `commitOk` is the
engine's verdict for the transaction. -/
def DeleteChat (db : DB) (jid : String) (commitOk : Bool) : DB × Option SqlErr :=
  if commitOk then
    ({ db with
        messages := db.messages.filter fun m => !(m.chatJID = jid)
        chats := db.chats.filter fun c => !(c.jid = jid) },
     none)
  else
    (db, some (SqlErr.failure "commit"))

theorem filter_not_filter {α : Type} (p : α → Bool) (l : List α) :
    (l.filter fun a => !(p a)).filter p = [] := by
  induction l with
  | nil => rfl
  | cons a l ih =>
    by_cases h : p a
    · simp [List.filter_cons, h, ih]
    · simp only [Bool.not_eq_true] at h
      simp [List.filter_cons, h, ih]

/-- C6: deleting a chat removes all its messages and all its chat rows in one
all-or-nothing transaction: after a successful commit no message and no chat
row for that identifier remains, and a failed transaction leaves the
database unchanged. -/
theorem C6_deleteChat_atomic_cascade (db : DB) (jid : String) :
    ((DeleteChat db jid true).1.messages.filter (fun m => m.chatJID = jid) = [] ∧
     (DeleteChat db jid true).1.chats.filter (fun c => c.jid = jid) = []) ∧
    (DeleteChat db jid false).1 = db := by
  refine ⟨⟨?_, ?_⟩, rfl⟩
  · exact filter_not_filter (fun m => m.chatJID = jid) db.messages
  · exact filter_not_filter (fun c => c.jid = jid) db.chats

/-- C7 counterexample: the claim says `SaveDeviceRecord` returns any engine
error of its UPDATE or INSERT and that `CreateMessage` surfaces a chat-upsert
failure; but when the UPDATE succeeds with zero rows affected and the INSERT
then fails, `SaveDeviceRecord` still returns `nil` (success), and
`CreateMessage` returns `nil` when only its chat upsert failed. -/
theorem C7_counterexample :
    SaveDeviceRecordE (none, 0) (some (SqlErr.failure "disk full"), 0) =
      GoResult.ret none ∧
    CreateMessageE (some (SqlErr.failure "disk full")) none = none :=
  ⟨rfl, rfl⟩

/-- C7 (amended): `StoreChat` and (for non-dropped messages) `StoreMessage`
propagate every engine error of their UPDATE/INSERT to the caller.
`SaveDeviceRecord` does not: an INSERT failure is discarded and the call
returns success, and an UPDATE failure crashes the call (nil-result
dereference) instead of returning the error — so no engine error is ever
returned.  `CreateMessage` discards the chat-upsert error, surfacing only
the message upsert's result. -/
theorem C7_error_propagation (e : SqlErr) (i : ExecRes) (n : Nat)
    (m : Message) (cr mr : Option SqlErr)
    (hm : ¬(m.content = "" ∧ m.mediaType = "")) :
    StoreChatE (some e, n) i = some e ∧
    StoreChatE (none, 0) i = i.1 ∧
    StoreChatE (none, n + 1) i = none ∧
    StoreMessageE m (some e, n) i = some e ∧
    StoreMessageE m (none, 0) i = i.1 ∧
    StoreMessageE m (none, n + 1) i = none ∧
    CreateMessageE cr mr = mr ∧
    SaveDeviceRecordE (none, 0) i = GoResult.ret none ∧
    SaveDeviceRecordE (none, n + 1) i = GoResult.ret none ∧
    SaveDeviceRecordE (some e, n) i = GoResult.crash := by
  have hcond : ¬((m.content = "" && m.mediaType = "") = true) := by
    intro h
    exact hm (by simpa using h)
  refine ⟨rfl, rfl, by simp [StoreChatE], ?_, ?_, ?_, rfl, rfl, rfl, rfl⟩
  · simp only [StoreMessageE]
    rw [if_neg hcond]
  · simp only [StoreMessageE]
    rw [if_neg hcond]
    simp
  · simp only [StoreMessageE]
    rw [if_neg hcond]
    simp

/-- Witness for C7's amended theorem at concrete inputs. -/
theorem C7_witness :
    ¬(msgHiW.content = "" ∧ msgHiW.mediaType = "") ∧
    (StoreChatE (some (SqlErr.failure "down"), 0) (none, 0) =
        some (SqlErr.failure "down") ∧
     StoreMessageE msgHiW (none, 0) (some (SqlErr.failure "down"), 0) =
        some (SqlErr.failure "down") ∧
     SaveDeviceRecordE (none, 0) (some (SqlErr.failure "down"), 0) =
        GoResult.ret none ∧
     SaveDeviceRecordE (some (SqlErr.failure "down"), 0) (none, 0) =
        GoResult.crash) :=
  ⟨by decide,
   (C7_error_propagation (SqlErr.failure "down") (none, 0) 0 msgHiW none none
      (by decide)).1,
   (C7_error_propagation (SqlErr.failure "down")
      ((some (SqlErr.failure "down"), 0) : ExecRes) 0 msgHiW none none
      (by decide)).2.2.2.2.1,
   (C7_error_propagation (SqlErr.failure "down")
      ((some (SqlErr.failure "down"), 0) : ExecRes) 0 msgHiW none none
      (by decide)).2.2.2.2.2.2.2.1,
   (C7_error_propagation (SqlErr.failure "down") (none, 0) 0 msgHiW none none
      (by decide)).2.2.2.2.2.2.2.2.2⟩

/-- `getMigrations` (part_001 lines 306-316): the ordered, append-only list
of DDL statements; the blob column type depends on the dialect. -/
def getMigrations (isPostgres : Bool) : List String :=
  let blobType := if isPostgres then "BYTEA" else "BLOB"
  [ "CREATE TABLE IF NOT EXISTS chats (jid VARCHAR(255), device_id VARCHAR(255) DEFAULT '', name VARCHAR(255), last_message_time TIMESTAMP, ephemeral_expiration INTEGER DEFAULT 0, created_at TIMESTAMP DEFAULT CURRENT_TIMESTAMP, updated_at TIMESTAMP DEFAULT CURRENT_TIMESTAMP, PRIMARY KEY (jid, device_id))",
    "CREATE TABLE IF NOT EXISTS messages (id VARCHAR(255), chat_jid VARCHAR(255), device_id VARCHAR(255) DEFAULT '', sender VARCHAR(255), content TEXT, timestamp TIMESTAMP, is_from_me BOOLEAN DEFAULT FALSE, media_type VARCHAR(50), filename VARCHAR(255), url TEXT, media_key " ++ blobType ++ ", file_sha256 " ++ blobType ++ ", file_enc_sha256 " ++ blobType ++ ", file_length INTEGER DEFAULT 0, created_at TIMESTAMP DEFAULT CURRENT_TIMESTAMP, updated_at TIMESTAMP DEFAULT CURRENT_TIMESTAMP, PRIMARY KEY (id, chat_jid, device_id))",
    "CREATE TABLE IF NOT EXISTS devices (device_id VARCHAR(255) PRIMARY KEY, display_name VARCHAR(255) DEFAULT '', jid VARCHAR(255) DEFAULT '', created_at TIMESTAMP DEFAULT CURRENT_TIMESTAMP, updated_at TIMESTAMP DEFAULT CURRENT_TIMESTAMP)" ]

/-- `SELECT COALESCE(MAX(version), 0) FROM schema_info`. -/
def maxVersion (si : List Nat) : Nat := si.foldr max 0

/-- `getSchemaVersion` (part_001 lines 299-304).  The `CREATE TABLE IF NOT
EXISTS schema_info` it issues is a no-op here: the model database always
carries the table. -/
def getSchemaVersion (db : DB) : Nat := maxVersion db.schemaInfo

/-- One loop iteration's bookkeeping: `DELETE FROM schema_info WHERE
version = v` followed by `INSERT INTO schema_info (version) VALUES (v)`. -/
def recordVersion (si : List Nat) (v : Nat) : List Nat :=
  (si.filter fun x => !(x = v)) ++ [v]

/-- The migration loop of `InitializeSchema` (part_001 lines 291-295): for
each index from the current version up to the migration count, execute the
DDL (a `CREATE TABLE IF NOT EXISTS`, a no-op on the model's always-present
tables) and record version `i + 1`. -/
def migrateFrom (si : List Nat) (i len : Nat) : List Nat :=
  if h : i < len then migrateFrom (recordVersion si (i + 1)) (i + 1) len else si
termination_by len - i

/-- `InitializeSchema` (part_001 lines 288-297). -/
def InitializeSchema (isPostgres : Bool) (db : DB) : DB :=
  { db with
      schemaInfo :=
        migrateFrom db.schemaInfo (getSchemaVersion db) (getMigrations isPostgres).length }

theorem maxVersion_append_singleton (l : List Nat) (a : Nat) :
    maxVersion (l ++ [a]) = max (maxVersion l) a := by
  induction l with
  | nil => simp [maxVersion]
  | cons b l ih =>
    simp only [maxVersion, List.cons_append, List.foldr_cons] at ih ⊢
    omega

theorem maxVersion_filter_le (p : Nat → Bool) (l : List Nat) :
    maxVersion (l.filter p) ≤ maxVersion l := by
  induction l with
  | nil => simp
  | cons b l ih =>
    by_cases h : p b
    · simp only [List.filter_cons, h, ite_true, maxVersion, List.foldr] at ih ⊢
      omega
    · simp only [Bool.not_eq_true] at h
      simp only [List.filter_cons, h, Bool.false_eq_true, ite_false, maxVersion,
        List.foldr] at ih ⊢
      omega

theorem maxVersion_recordVersion (si : List Nat) (v : Nat) :
    maxVersion (recordVersion si v) = max (maxVersion (si.filter fun x => !(x = v))) v :=
  maxVersion_append_singleton _ _

theorem migrateFrom_ge (si : List Nat) (i len : Nat) (h : ¬i < len) :
    migrateFrom si i len = si := by
  unfold migrateFrom
  rw [dif_neg h]

theorem maxVersion_migrateFrom :
    ∀ (d i : Nat) (si : List Nat) (len : Nat), len - i = d → i < len →
      maxVersion si ≤ len → maxVersion (migrateFrom si i len) = len := by
  intro d
  induction d using Nat.strong_induction_on with
  | _ d ih =>
    intro i si len hd hi hmax
    unfold migrateFrom
    rw [dif_pos hi]
    have hrec : maxVersion (recordVersion si (i + 1)) ≤ len := by
      rw [maxVersion_recordVersion]
      have := maxVersion_filter_le (fun x => !(x = i + 1)) si
      omega
    by_cases h2 : i + 1 < len
    · exact ih (len - (i + 1)) (by omega) (i + 1) _ len rfl h2 hrec
    · have hlen : i + 1 = len := by omega
      rw [migrateFrom_ge _ _ _ h2, maxVersion_recordVersion]
      have := maxVersion_filter_le (fun x => !(x = i + 1)) si
      omega

/-- C4: after a successful schema-initialization run starting at a recorded
version not exceeding the migration count, the recorded version equals the
migration count, and a second run changes nothing (its loop body runs zero
times). -/
theorem C4_initializeSchema_resumable (isPg : Bool) (db : DB)
    (h : getSchemaVersion db ≤ (getMigrations isPg).length) :
    getSchemaVersion (InitializeSchema isPg db) = (getMigrations isPg).length ∧
    InitializeSchema isPg (InitializeSchema isPg db) = InitializeSchema isPg db := by
  have hv : getSchemaVersion (InitializeSchema isPg db) = (getMigrations isPg).length := by
    show maxVersion (migrateFrom db.schemaInfo (getSchemaVersion db)
      (getMigrations isPg).length) = (getMigrations isPg).length
    by_cases hlt : getSchemaVersion db < (getMigrations isPg).length
    · exact maxVersion_migrateFrom _ _ _ _ rfl hlt h
    · have heq : getSchemaVersion db = (getMigrations isPg).length := by omega
      rw [migrateFrom_ge _ _ _ hlt]
      exact heq
  refine ⟨hv, ?_⟩
  show { InitializeSchema isPg db with
          schemaInfo := migrateFrom (InitializeSchema isPg db).schemaInfo
            (getSchemaVersion (InitializeSchema isPg db)) (getMigrations isPg).length } =
       InitializeSchema isPg db
  rw [hv, migrateFrom_ge _ _ _ (lt_irrefl _)]

/-- Witness for C4: initialization of the empty database (version 0). -/
theorem C4_witness :
    getSchemaVersion dbEmpty ≤ (getMigrations true).length ∧
    (getSchemaVersion (InitializeSchema true dbEmpty) = (getMigrations true).length ∧
     InitializeSchema true (InitializeSchema true dbEmpty) =
       InitializeSchema true dbEmpty) :=
  ⟨by decide, C4_initializeSchema_resumable true dbEmpty (by decide)⟩

/-- ASCII digit character, as produced per digit by `fmt.Sprintf("%d")`. -/
def digitChar (d : Nat) : Char := Char.ofNat (48 + d % 10)

/-- Decimal digits of `n`, most significant first (`fmt.Sprintf("%d", n)`). -/
def natToCharsAux (n : Nat) (acc : List Char) : List Char :=
  if h : n < 10 then digitChar n :: acc
  else natToCharsAux (n / 10) (digitChar n :: acc)
termination_by n
decreasing_by
  exact Nat.div_lt_self (by omega) (by omega)

def natToChars (n : Nat) : List Char := natToCharsAux n []

/-- The marker `fmt.Sprintf("$%d", n)`. -/
def dollarMarker (n : Nat) : List Char := '$' :: natToChars n

theorem digitChar_ne_q (d : Nat) : digitChar d ≠ '?' := by
  unfold digitChar
  have h : d % 10 < 10 := Nat.mod_lt _ (by omega)
  generalize d % 10 = m at h ⊢
  interval_cases m <;> decide

theorem natToCharsAux_no_q (n : Nat) :
    ∀ acc : List Char, '?' ∉ acc → '?' ∉ natToCharsAux n acc := by
  induction n using Nat.strong_induction_on with
  | _ n ih =>
    intro acc hacc
    unfold natToCharsAux
    by_cases h : n < 10
    · rw [dif_pos h]
      intro hmem
      rcases List.mem_cons.mp hmem with h1 | h1
      · exact digitChar_ne_q n h1.symm
      · exact hacc h1
    · rw [dif_neg h]
      apply ih (n / 10) (Nat.div_lt_self (by omega) (by omega))
      intro hmem
      rcases List.mem_cons.mp hmem with h1 | h1
      · exact digitChar_ne_q n h1.symm
      · exact hacc h1

theorem dollarMarker_no_q (n : Nat) : '?' ∉ dollarMarker n := by
  intro h
  rcases List.mem_cons.mp h with h1 | h1
  · exact absurd h1 (by decide)
  · exact natToCharsAux_no_q n [] (List.not_mem_nil _) h1

/-- `strings.Replace(query, "?", rep, 1)`: replace the first occurrence of
the placeholder token. -/
def replaceFirstQ (rep : List Char) : List Char → List Char
  | [] => []
  | c :: rest => if c = '?' then rep ++ rest else c :: replaceFirstQ rep rest

theorem count_replaceFirstQ (rep : List Char) (hrep : '?' ∉ rep) :
    ∀ s : List Char, '?' ∈ s →
      (replaceFirstQ rep s).count '?' = s.count '?' - 1 := by
  intro s
  induction s with
  | nil => intro h; exact absurd h (List.not_mem_nil _)
  | cons c rest ih =>
    intro h
    by_cases hc : c = '?'
    · subst hc
      simp [replaceFirstQ, List.count_append, List.count_cons,
        List.count_eq_zero.mpr hrep]
    · have hrest : '?' ∈ rest := by
        rcases List.mem_cons.mp h with h1 | h1
        · exact absurd h1.symm hc
        · exact h1
      simp only [replaceFirstQ, if_neg hc, List.count_cons, ih hrest]
      simp [hc]

theorem count_replaceFirstQ_lt (rep : List Char) (hrep : '?' ∉ rep)
    (s : List Char) (hs : '?' ∈ s) :
    (replaceFirstQ rep s).count '?' < s.count '?' := by
  rw [count_replaceFirstQ rep hrep s hs]
  have hpos : 0 < s.count '?' := List.count_pos_iff.mpr hs
  omega

/-- The loop of `p` (part_001 lines 36-40): while the query contains the
token, replace its first occurrence with the marker `$n` and move on. -/
def pAux (s : List Char) (n : Nat) : List Char :=
  if h : '?' ∈ s then pAux (replaceFirstQ (dollarMarker n) s) (n + 1) else s
termination_by s.count '?'
decreasing_by
  exact count_replaceFirstQ_lt _ (dollarMarker_no_q n) s h

/-- `p` (part_001 lines 32-42): identity for the native-token engine,
sequential numbering for Postgres.  The query string is taken as its
character list. -/
def p (isPostgres : Bool) (query : List Char) : List Char :=
  if !isPostgres then query else pAux query 1

/-- Modelled from the spec: replace the Nth occurrence of the universal
token, left to right, with the distinct ordinal marker `$N`, numbering from
`n` upward; all other characters are preserved. -/
def specNumbered : List Char → Nat → List Char
  | [], _ => []
  | c :: rest, n =>
      if c = '?' then dollarMarker n ++ specNumbered rest (n + 1)
      else c :: specNumbered rest n

theorem specNumbered_append_no_q (a : List Char) (ha : '?' ∉ a)
    (b : List Char) (n : Nat) : specNumbered (a ++ b) n = a ++ specNumbered b n := by
  induction a with
  | nil => simp
  | cons c rest ih =>
    have hc : ¬(c = '?') := fun h => ha (h ▸ List.mem_cons_self c rest)
    have hrest : '?' ∉ rest := fun h => ha (List.mem_cons_of_mem c h)
    simp [specNumbered, hc, ih hrest]

theorem specNumbered_no_q (s : List Char) (hs : '?' ∉ s) (n : Nat) :
    specNumbered s n = s := by
  have := specNumbered_append_no_q s hs [] n
  simpa [specNumbered] using this

theorem replaceFirstQ_decomp (rep a b : List Char) (ha : '?' ∉ a) :
    replaceFirstQ rep (a ++ '?' :: b) = a ++ rep ++ b := by
  induction a with
  | nil => simp [replaceFirstQ]
  | cons c rest ih =>
    have hc : ¬(c = '?') := fun h => ha (h ▸ List.mem_cons_self c rest)
    have hrest : '?' ∉ rest := fun h => ha (List.mem_cons_of_mem c h)
    simp [replaceFirstQ, hc, ih hrest]

theorem exists_first_q : ∀ s : List Char, '?' ∈ s →
    ∃ a b, s = a ++ '?' :: b ∧ '?' ∉ a := by
  intro s
  induction s with
  | nil => intro h; exact absurd h (List.not_mem_nil _)
  | cons c rest ih =>
    intro h
    by_cases hc : c = '?'
    · exact ⟨[], rest, by rw [hc]; rfl, List.not_mem_nil _⟩
    · have hrest : '?' ∈ rest := by
        rcases List.mem_cons.mp h with h1 | h1
        · exact absurd h1.symm hc
        · exact h1
      obtain ⟨a, b, heq, ha⟩ := ih hrest
      refine ⟨c :: a, b, by rw [heq]; rfl, ?_⟩
      intro hmem
      rcases List.mem_cons.mp hmem with h1 | h1
      · exact hc h1.symm
      · exact ha h1

theorem pAux_eq_specNumbered :
    ∀ (k : Nat) (s : List Char) (n : Nat), s.count '?' = k →
      pAux s n = specNumbered s n := by
  intro k
  induction k using Nat.strong_induction_on with
  | _ k ih =>
    intro s n hk
    by_cases hq : '?' ∈ s
    · obtain ⟨a, b, rfl, ha⟩ := exists_first_q s hq
      unfold pAux
      rw [dif_pos hq, replaceFirstQ_decomp _ _ _ ha]
      have hcnt : (a ++ dollarMarker n ++ b).count '?' = b.count '?' := by
        simp [List.count_append, List.count_eq_zero.mpr ha,
          List.count_eq_zero.mpr (dollarMarker_no_q n)]
      have hlt : (a ++ dollarMarker n ++ b).count '?' < k := by
        rw [hcnt]
        have h2 : (a ++ '?' :: b).count '?' = a.count '?' + (b.count '?' + 1) := by
          simp [List.count_append, List.count_cons]
        omega
      rw [ih _ hlt _ (n + 1) rfl]
      rw [List.append_assoc, specNumbered_append_no_q a ha,
        specNumbered_append_no_q (dollarMarker n) (dollarMarker_no_q n),
        specNumbered_append_no_q a ha]
      have hstep : specNumbered ('?' :: b) n = dollarMarker n ++ specNumbered b (n + 1) := by
        simp [specNumbered]
      rw [hstep]
    · unfold pAux
      rw [dif_neg hq]
      exact (specNumbered_no_q s hq n).symm

/-- C3: for the numbered-parameter dialect (Postgres) the adapter `p`
replaces the Nth occurrence of the universal token with the marker `$N`,
numbering 1..k left to right and preserving everything else (it coincides
with the spec-side renumbering function); for a native-token engine it
returns the query unchanged. -/
theorem C3_placeholder_translation (query : List Char) :
    p true query = specNumbered query 1 ∧ p false query = query :=
  ⟨pAux_eq_specNumbered (query.count '?') query 1 rfl, rfl⟩

/-- Fuel-driven evaluator for SQL `LIKE` pattern matching: `%` matches any
sequence, `_` exactly one character, anything else itself; the pattern must
cover the whole string.  Each step consumes one fuel unit; `likeMatch`
supplies adequate fuel. -/
def likeMatchFuel : Nat → List Char → List Char → Bool
  | 0, _, _ => false
  | _ + 1, [], s => s.isEmpty
  | fuel + 1, c :: ps, s =>
      if c = '%' then
        match s with
        | [] => likeMatchFuel fuel ps []
        | _ :: s' => likeMatchFuel fuel ps s || likeMatchFuel fuel (c :: ps) s'
      else if c = '_' then
        match s with
        | [] => false
        | _ :: s' => likeMatchFuel fuel ps s'
      else
        match s with
        | [] => false
        | d :: s' => (c = d) && likeMatchFuel fuel ps s'

/-- SQL `LIKE` with standard (Postgres) semantics — the engine this build
runs against (`initChatStorage` accepts only `postgres://` URIs); note that
Postgres `LIKE` is case-sensitive. -/
def likeMatch (pat s : List Char) : Bool :=
  likeMatchFuel (pat.length + s.length + 1) pat s

theorem likeMatchFuel_irrel :
    ∀ (n : Nat), ∀ (pat s : List Char) (f1 f2 : Nat),
      pat.length + s.length = n → n < f1 → n < f2 →
      likeMatchFuel f1 pat s = likeMatchFuel f2 pat s := by
  intro n
  induction n using Nat.strong_induction_on with
  | _ n ih =>
    intro pat s f1 f2 hn h1 h2
    rcases f1 with _ | g1
    · omega
    rcases f2 with _ | g2
    · omega
    rcases pat with _ | ⟨c, ps⟩
    · rfl
    simp only [List.length_cons, List.length_nil] at hn
    rcases s with _ | ⟨d, s'⟩
    · by_cases hc : c = '%'
      · subst hc
        simp only [List.length_nil] at hn
        exact ih ps.length (by omega) ps [] g1 g2 (by simp) (by omega) (by omega)
      · by_cases hc2 : c = '_'
        · subst hc2
          rfl
        · simp only [likeMatchFuel, if_neg hc, if_neg hc2]
    · simp only [List.length_cons] at hn
      by_cases hc : c = '%'
      · subst hc
        show (likeMatchFuel g1 ps (d :: s') || likeMatchFuel g1 ('%' :: ps) s')
           = (likeMatchFuel g2 ps (d :: s') || likeMatchFuel g2 ('%' :: ps) s')
        rw [ih (ps.length + (s'.length + 1)) (by omega) ps (d :: s') g1 g2
              (by simp) (by omega) (by omega),
            ih (ps.length + 1 + s'.length) (by omega) ('%' :: ps) s' g1 g2
              (by simp) (by omega) (by omega)]
      · by_cases hc2 : c = '_'
        · subst hc2
          show likeMatchFuel g1 ps s' = likeMatchFuel g2 ps s'
          exact ih (ps.length + s'.length) (by omega) ps s' g1 g2 rfl
            (by omega) (by omega)
        · simp only [likeMatchFuel, if_neg hc, if_neg hc2]
          rw [ih (ps.length + s'.length) (by omega) ps s' g1 g2 rfl
                (by omega) (by omega)]

theorem likeMatchFuel_eq_likeMatch (pat s : List Char) (f : Nat)
    (h : pat.length + s.length < f) : likeMatchFuel f pat s = likeMatch pat s :=
  likeMatchFuel_irrel (pat.length + s.length) pat s f _ rfl h (by omega)

theorem likeMatch_nil (s : List Char) : likeMatch [] s = s.isEmpty := rfl

theorem likeMatch_usc_cons (ps : List Char) (d : Char) (s' : List Char) :
    likeMatch ('_' :: ps) (d :: s') = likeMatch ps s' := by
  show likeMatchFuel (('_' :: ps).length + (d :: s').length) ps s' = _
  exact likeMatchFuel_eq_likeMatch ps s' (('_' :: ps).length + (d :: s').length)
    (by simp; omega)

/-- A protocol JID: local part (`User`) and server. -/
structure JID where
  user : String
  server : String
deriving DecidableEq

/-- `types.JID.String()`: `user@server`. -/
def jidString (j : JID) : String := j.user ++ "@" ++ j.server

/-- `GetChatNameWithPushName` (part_001 lines 277-282): prefer the
sender-provided push name; otherwise the JID's local part.  The `chatJID`
and `senderUser` parameters are ignored, as in the source. -/
def GetChatNameWithPushName (jid : JID) (chatJID : String)
    (senderUser pushName : String) : String :=
  if pushName ≠ "" then pushName else jid.user

/-- Inbound message notification (`events.Message`), with the text content
and the media descriptor produced by the external extraction utilities
(`utils.ExtractMessageTextFromProto`, `utils.ExtractMediaInfo`) carried as
fields, and the sender JID split into its parts. -/
structure MessageEvent where
  id : String
  senderUser : String
  senderServer : String
  pushName : String
  timestamp : Nat
  isFromMe : Bool
  content : String
  mediaType : String
  filename : String
  url : String
  mediaKey : List Nat
  fileSHA256 : List Nat
  fileEncSHA256 : List Nat
  fileLength : Nat
deriving DecidableEq

/-- The chat row `CreateMessage` builds (part_001 lines 258-263): canonical
JID string, derived display name, notification timestamp as last-message
time; the remaining fields are Go zero values. -/
def ingestChat (deviceID : String) (nj : JID) (evt : MessageEvent) : Chat :=
  { deviceID := deviceID, jid := jidString nj,
    name := GetChatNameWithPushName nj (jidString nj) evt.senderUser evt.pushName,
    lastMessageTime := evt.timestamp,
    ephemeralExpiration := 0, createdAt := 0, updatedAt := 0 }

/-- The message row `CreateMessage` builds (part_001 lines 269-273). -/
def ingestMessage (deviceID : String) (nj : JID) (evt : MessageEvent) : Message :=
  { id := evt.id, chatJID := jidString nj, deviceID := deviceID,
    sender := evt.senderUser ++ "@" ++ evt.senderServer,
    content := evt.content, timestamp := evt.timestamp, isFromMe := evt.isFromMe,
    mediaType := evt.mediaType, filename := evt.filename, url := evt.url,
    mediaKey := evt.mediaKey, fileSHA256 := evt.fileSHA256,
    fileEncSHA256 := evt.fileEncSHA256, fileLength := evt.fileLength,
    createdAt := 0, updatedAt := 0 }

/-- `CreateMessage` (part_001 lines 248-275): the chat identifier is first
normalized by the external `whatsapp.NormalizeJIDFromLID`; the normalized
JID `nj` is taken as an input.  Upserts the chat row, then the message row. -/
def CreateMessage (db : DB) (deviceID : String) (nj : JID)
    (evt : MessageEvent) (now : Nat) : DB :=
  let db1 := (StoreChat db (ingestChat deviceID nj evt) now).1
  (StoreMessage db1 (ingestMessage deviceID nj evt) now).1

theorem storeMessage_chats (db : DB) (m : Message) (now : Nat) :
    (StoreMessage db m now).1.chats = db.chats := by
  simp only [StoreMessage]
  split
  · rfl
  · split <;> rfl

/-- C9: after ingesting an inbound message notification, the chat row under
the canonical identifier and device bears the sender-provided display name
when it is non-empty and otherwise the local part of the canonical chat
identifier, and its last-message time equals the notification's timestamp. -/
theorem C9_createMessage_chat_row (db : DB) (deviceID : String) (nj : JID)
    (evt : MessageEvent) (now : Nat)
    (hpk : chatRowCount db (jidString nj) deviceID ≤ 1) :
    chatRowCount (CreateMessage db deviceID nj evt now) (jidString nj) deviceID = 1 ∧
    ∀ row ∈ (CreateMessage db deviceID nj evt now).chats,
      chatKeyMatch (jidString nj) deviceID row = true →
        row.name = (if evt.pushName ≠ "" then evt.pushName else nj.user) ∧
        row.lastMessageTime = evt.timestamp := by
  have hchats : (CreateMessage db deviceID nj evt now).chats =
      (StoreChat db (ingestChat deviceID nj evt) now).1.chats := by
    unfold CreateMessage
    exact storeMessage_chats _ _ _
  constructor
  · show ((CreateMessage db deviceID nj evt now).chats.filter
      (chatKeyMatch (jidString nj) deviceID)).length = 1
    rw [hchats]
    have h1 := chatRowCount_storeChat db (ingestChat deviceID nj evt) now
    have hj : (ingestChat deviceID nj evt).jid = jidString nj := rfl
    have hd : (ingestChat deviceID nj evt).deviceID = deviceID := rfl
    rw [hj, hd] at h1
    show chatRowCount (StoreChat db (ingestChat deviceID nj evt) now).1
      (jidString nj) deviceID = 1
    rw [h1]
    by_cases h0 : chatRowCount db (jidString nj) deviceID = 0
    · simp [h0]
    · rw [if_neg h0]
      omega
  · intro row hrow hkey
    rw [hchats] at hrow
    have h2 := storeChat_key_fields db (ingestChat deviceID nj evt) now row hrow
    have hj : (ingestChat deviceID nj evt).jid = jidString nj := rfl
    have hd : (ingestChat deviceID nj evt).deviceID = deviceID := rfl
    rw [hj, hd] at h2
    exact h2 hkey

/-- Example inbound notification from "Alice". -/
def evtAlice : MessageEvent :=
  { id := "msg1", senderUser := "alice", senderServer := "srv",
    pushName := "Alice", timestamp := 42, isFromMe := false,
    content := "Hi", mediaType := "", filename := "", url := "",
    mediaKey := [], fileSHA256 := [], fileEncSHA256 := [], fileLength := 0 }

/-- Example normalized chat JID. -/
def njW : JID := { user := "42", server := "srv" }

/-- Witness for C9: ingesting Alice's notification into the empty database. -/
theorem C9_witness :
    chatRowCount dbEmpty (jidString njW) "dev1" ≤ 1 ∧
    (∀ row ∈ (CreateMessage dbEmpty "dev1" njW evtAlice 42).chats,
      chatKeyMatch (jidString njW) "dev1" row = true →
        row.name = (if evtAlice.pushName ≠ "" then evtAlice.pushName else njW.user) ∧
        row.lastMessageTime = evtAlice.timestamp) :=
  ⟨by decide,
   (C9_createMessage_chat_row dbEmpty "dev1" njW evtAlice 42 (by decide)).2⟩

end ChatStorage
